import Mathlib

/-!
# Verification of the python-zstandard streaming/buffer layer

This file gives a shallow embedding, in Lean 4, of the buffer-management
logic of the python-zstandard C extension:

* `BufferWithSegments_init` / `BufferWithSegments_item`
  (src/c-ext/bufferutil.c): bounds-validated segment collections;
* `OutputBuffer_InitAndGrow` / `OutputBuffer_Grow` / `OutputBuffer_Finish`
  (src/c-ext/blocks_output_buffer.h): the growable block-list output buffer;
* `ZstdDecompressor_decompress` (src/c-ext/decompressor.c, src/zstd.c):
  the one-shot decompression entry point;
* the stream-session state guards of the decompression reader
  (src/c-ext/decompressionreader.c), compression reader
  (src/c-ext/compressionreader.c) and compression writer
  (src/c-ext/compressionwriter.c).

Machine integers are modelled as `Nat`/`Int` with explicit reductions
modulo `2 ^ 64` where the C code performs wrapping `unsigned long long`
arithmetic.  Calls into the native zstd library are modelled as oracle
function parameters, so theorems quantifying over every oracle express
that a result is produced without any native call being consulted.
Python exception classes are modelled by the `ZErr` enumeration.
-/

/-- Python-level error outcomes raised by the extension code.
`zstdError` is the module's `ZstdError` (the spec's
CompressionError/DecompressionError/StateError), `valueError` is
`ValueError` (the spec's ValidationError), `memoryError` is `MemoryError`
(the spec's AllocationError). -/
inductive ZErr where
  | zstdError
  | valueError
  | memoryError
  | indexError
  | systemError
  | unsupportedOperation
  deriving DecidableEq, Repr

/-- The constant 2 ^ 64, the modulus of C `unsigned long long` arithmetic on the
platforms this extension targets. -/
def U64_MOD : Nat := 2 ^ 64

/-- The value of `PY_SSIZE_T_MAX` on a 64-bit platform. -/
def PY_SSIZE_T_MAX : Int := 2 ^ 63 - 1

/-- A segment record as stored in the flat segment table:
a `(offset, length)` pair of 64-bit unsigned integers
(struct `BufferSegment` in src/c-ext/python-zstandard.h). -/
structure BufferSegment where
  offset : Nat
  length : Nat
  deriving DecidableEq, Repr

/-- A segment record is well formed when both fields fit in a u64. -/
def BufferSegment.WF (s : BufferSegment) : Prop :=
  s.offset < U64_MOD ∧ s.length < U64_MOD

/-- The state of a successfully constructed `ZstdBufferWithSegments`:
the size of the backing data buffer, and the privately owned copy of the
segment table (src/c-ext/python-zstandard.h). -/
structure ZstdBufferWithSegments where
  dataSize : Nat
  segments : List BufferSegment
  deriving DecidableEq, Repr

/-- The per-segment validation test performed by `BufferWithSegments_init`
at src/c-ext/bufferutil.c line 87: the C expression
`segment->offset + segment->length > (unsigned long long)self->parent.len`
adds two `unsigned long long` values, so the sum wraps modulo `2 ^ 64`. -/
def segmentRejected (dataSize : Nat) (s : BufferSegment) : Bool :=
  (s.offset + s.length) % U64_MOD > dataSize

/-- Model of `BufferWithSegments_init` (src/c-ext/bufferutil.c lines 42-115),
starting from the per-segment validation loop: every segment record is
checked with `segmentRejected`; on any failure a `ValueError` is raised
and no object is produced.  On success the constructor stores the data
size and a private copy of the segment table (the `memcpy` at line 102).
The multiple-of-record-width check on the raw table and the buffer
contiguity checks happen before this loop and are outside this model,
which takes the already-decoded list of records. -/
def BufferWithSegments_init (dataSize : Nat) (segments : List BufferSegment) :
    Except ZErr ZstdBufferWithSegments :=
  if segments.any (fun s => segmentRejected dataSize s) then
    .error .valueError
  else
    .ok { dataSize := dataSize, segments := segments }

/-- The zero-copy view produced by an indexed read: `item->data` is
`self->data + offset` and `item->dataSize` is the segment length, so the
view covers the byte range `[offset, offset + dataSize)` of the parent
buffer (src/c-ext/bufferutil.c lines 183-188). -/
structure ZstdBufferSegment where
  offset : Nat
  dataSize : Nat
  deriving DecidableEq, Repr

/-- Model of `BufferWithSegments_item` (src/c-ext/bufferutil.c lines 165-191):
negative or too-large indices raise `IndexError`; otherwise the result is
a view onto the parent buffer built from the stored (copied) segment
table entry at index `i`. -/
def BufferWithSegments_item (self : ZstdBufferWithSegments) (i : Int) :
    Except ZErr ZstdBufferSegment :=
  if i < 0 then
    .error .indexError
  else if i ≥ self.segments.length then
    .error .indexError
  else
    match self.segments.get? i.toNat with
    | none => .error .indexError
    | some seg => .ok { offset := seg.offset, dataSize := seg.length }

/-- A view stays inside a parent buffer of `dataSize` bytes exactly when
the (mathematical) sum of its offset and length is at most `dataSize`:
the view reads bytes at offsets `offset, …, offset + dataSize - 1`. -/
def viewInBounds (dataSize : Nat) (v : ZstdBufferSegment) : Prop :=
  v.offset + v.dataSize ≤ dataSize

example :
    BufferWithSegments_init 6 [⟨0, 3⟩, ⟨3, 3⟩] =
      .ok { dataSize := 6, segments := [⟨0, 3⟩, ⟨3, 3⟩] } := rfl

example : BufferWithSegments_init 6 [⟨0, 10⟩] = .error .valueError := rfl

/-- The table `BUFFER_BLOCK_SIZE` (src/c-ext/blocks_output_buffer.h lines 32-35):
the fixed block-size growth schedule, in bytes. -/
def BUFFER_BLOCK_SIZE : List Int :=
  [32 * 1024, 64 * 1024, 256 * 1024, 1 * 1048576, 4 * 1048576, 8 * 1048576,
   16 * 1048576, 16 * 1048576, 32 * 1048576, 32 * 1048576, 32 * 1048576,
   32 * 1048576, 64 * 1048576, 64 * 1048576, 128 * 1048576, 128 * 1048576,
   256 * 1048576]

/-- The schedule lookup performed by `OutputBuffer_Grow`
(src/c-ext/blocks_output_buffer.h lines 162-166): index `list_len` while
inside the table, the last table entry afterwards. -/
def scheduleSize (list_len : Nat) : Int :=
  if list_len < BUFFER_BLOCK_SIZE.length then
    BUFFER_BLOCK_SIZE.getD list_len 0
  else
    BUFFER_BLOCK_SIZE.getD (BUFFER_BLOCK_SIZE.length - 1) 0

/-- The struct `BlocksOutputBuffer` together with the `ZSTD_outBuffer` it fills
(src/c-ext/blocks_output_buffer.h lines 8-15): the sizes of the allocated
blocks (the mirror of the Python list of bytes objects), the cumulative
allocated size, the optional maximum length (negative for unlimited), and
the size/write-position of the current (last) block. -/
structure BlocksOutputBuffer where
  blocks : List Int
  allocated : Int
  max_length : Int
  obSize : Int
  obPos : Int
  deriving DecidableEq, Repr

/-- Model of `OutputBuffer_InitAndGrow` (src/c-ext/blocks_output_buffer.h lines
71-108): the first block is sized `max_length` when `0 ≤ max_length <
BUFFER_BLOCK_SIZE[0]`, and `BUFFER_BLOCK_SIZE[0]` otherwise.  Allocation
of the first block is assumed to succeed (a host allocation failure
aborts the whole operation and is outside this model). -/
def OutputBuffer_InitAndGrow (max_length : Int) : BlocksOutputBuffer :=
  let block_size : Int :=
    if 0 ≤ max_length ∧ max_length < BUFFER_BLOCK_SIZE.getD 0 0 then
      max_length
    else
      BUFFER_BLOCK_SIZE.getD 0 0
  { blocks := [block_size], allocated := block_size,
    max_length := max_length, obSize := block_size, obPos := 0 }

/-- The block size `OutputBuffer_Grow` will use
(src/c-ext/blocks_output_buffer.h lines 161-179): the schedule size for
the current block count, clipped to the remaining budget
`max_length - allocated` when a non-negative `max_length` is set. -/
def growBlockSize (b : BlocksOutputBuffer) : Int :=
  let block_size : Int := scheduleSize b.blocks.length
  if 0 ≤ b.max_length ∧ block_size > b.max_length - b.allocated then
    b.max_length - b.allocated
  else
    block_size

/-- Model of `OutputBuffer_Grow` (src/c-ext/blocks_output_buffer.h lines 151-206).
The caller guarantees `obPos = obSize` (the C code asserts it).  A zero
`max_length` makes the call return at once with no new block ("prevent
adding unlimited number of empty bytes to the list"); otherwise the
block size is `growBlockSize`.  The call fails with `MemoryError` when
adding the block would overflow `PY_SSIZE_T_MAX`; a successful call
appends the block and resets the output cursor onto it. -/
def OutputBuffer_Grow (b : BlocksOutputBuffer) : Except ZErr BlocksOutputBuffer :=
  if b.max_length = 0 then
    .ok b
  else
    let block_size : Int := growBlockSize b
    if block_size > PY_SSIZE_T_MAX - b.allocated then
      .error .memoryError
    else
      .ok { blocks := b.blocks ++ [block_size],
            allocated := b.allocated + block_size,
            max_length := b.max_length,
            obSize := block_size, obPos := 0 }

/-- Iterated calls to `OutputBuffer_Grow`, threading failure. -/
def growN (b : BlocksOutputBuffer) : Nat → Except ZErr BlocksOutputBuffer
  | 0 => .ok b
  | n + 1 =>
    match growN b n with
    | .error e => .error e
    | .ok b1 => OutputBuffer_Grow b1

/-- Model of `OutputBuffer_ReachedMaxLength` (src/c-ext/blocks_output_buffer.h
lines 210-217). -/
def OutputBuffer_ReachedMaxLength (b : BlocksOutputBuffer) : Bool :=
  b.allocated = b.max_length

/-- The buffer state seen by `OutputBuffer_Finish`, at the level of byte
contents: the contents of every allocated block (each listed at its full
allocated size) and the number of bytes written into the last block
(`ob->pos`; `ob->size` is the length of the last block). -/
structure BlocksOutputData where
  blocks : List (List Nat)
  obPos : Nat
  deriving DecidableEq, Repr

/-- Cumulative allocated size of a `BlocksOutputData` (the mirror of
`buffer->allocated`). -/
def BlocksOutputData.allocated (b : BlocksOutputData) : Nat :=
  (b.blocks.map List.length).sum

/-- Size of the last block (the mirror of `ob->size`). -/
def BlocksOutputData.obSize (b : BlocksOutputData) : Nat :=
  (b.blocks.getLastD []).length

/-- Model of `OutputBuffer_Finish` (src/c-ext/blocks_output_buffer.h lines
223-267).  Fast path: a single completely full block, or two blocks with
the second untouched, is returned directly.  General path: a result of
`allocated - (ob->size - ob->pos)` bytes is filled by copying every block
except the last in order, then the first `ob->pos` bytes of the last
block. -/
def OutputBuffer_Finish (b : BlocksOutputData) : List Nat :=
  if (b.blocks.length = 1 ∧ b.obPos = b.obSize) ∨
     (b.blocks.length = 2 ∧ b.obPos = 0) then
    b.blocks.headD []
  else
    b.blocks.dropLast.flatten ++ (b.blocks.getLastD []).take b.obPos

/-- Model of `ZstdDecompressor_decompress` (src/c-ext/decompressor.c lines 220-328
and, identically, src/zstd.c lines 1752-1863), modelled from the content
size probe onwards.  `decompressedSize` is the value returned by the
external `ZSTD_getDecompressedSize` for the input frame (0 when the frame
header carries no content size); `maxOutputSize` is the caller argument,
defaulting to 0.  `native destCapacity` is the external one-shot
decompression call into a destination buffer of `destCapacity` bytes,
returning either an error or the bytes it wrote (at most `destCapacity`
of them).  Context/dictionary creation failures are outside this model. -/
def ZstdDecompressor_decompress (decompressedSize : Nat) (maxOutputSize : Int)
    (native : Nat → Except String (List Nat)) : Except ZErr (List Nat) :=
  if decompressedSize = 0 ∧ maxOutputSize = 0 then
    .error .zstdError
  else if decompressedSize = 0 ∧ maxOutputSize < 0 then
    .error .systemError
  else
    let destCapacity : Nat :=
      if decompressedSize = 0 then maxOutputSize.toNat else decompressedSize
    match native destCapacity with
    | .error _ => .error .zstdError
    | .ok produced =>
      if decompressedSize ≠ 0 ∧ produced.length ≠ decompressedSize then
        .error .zstdError
      else
        .ok produced

/-- The first steps of a reader `read()` call, as decided by the guard
sequence at the top of the function: raise an error, return the empty
bytes object at once, or proceed into the decompression/compression loop
with the parsed size. -/
inductive ReadStep where
  | raise (e : ZErr)
  | emptyBytes
  | proceed (size : Int)
  deriving DecidableEq, Repr

namespace DecompressionReader

/-- The session state of a `ZstdDecompressionReader`
(src/c-ext/python-zstandard.h lines 203-233): the context-manager flags,
the input/output progress flags and the running decompressed-byte
counter.  The staging buffers themselves are handled by the native layer
and are outside this model. -/
structure State where
  entered : Bool
  closed : Bool
  finishedInput : Bool
  finishedOutput : Bool
  bytesDecompressed : Nat
  deriving DecidableEq, Repr

/-- Model of `reader_enter` (src/c-ext/decompressionreader.c lines 44-58): a
second `__enter__` on an entered session raises `ValueError` before the
native context is touched; `dctxOk` is the outcome of the external
`ensure_dctx` call, whose failure aborts the entry. -/
def reader_enter (dctxOk : Bool) (s : State) : Except ZErr State :=
  if s.entered then
    .error .valueError
  else if !dctxOk then
    .error .zstdError
  else
    .ok { s with entered := true }

/-- The guard sequence of `reader_read`
(src/c-ext/decompressionreader.c lines 131-152), in source order: not
entered → `ZstdError`; closed → `ValueError`; output already finished →
return `b""` (before the size argument is even parsed); parsed size < 1 →
`ValueError`; otherwise proceed into the decompression loop. -/
def reader_read_guard (s : State) (size : Int) : ReadStep :=
  if !s.entered then
    .raise .zstdError
  else if s.closed then
    .raise .valueError
  else if s.finishedOutput then
    .emptyBytes
  else if size < 1 then
    .raise .valueError
  else
    .proceed size

/-- Model of `reader_flush` (src/c-ext/decompressionreader.c lines 110-112):
an unconditional no-op returning `None`, with no state guard at all. -/
def reader_flush (_s : State) : Except ZErr Unit :=
  .ok ()

/-- Model of `reader_close` (src/c-ext/decompressionreader.c lines 96-99). -/
def reader_close (s : State) : State :=
  { s with closed := true }

/-- The read-and-discard loop of `reader_seek`
(src/c-ext/decompressionreader.c lines 333-350): while bytes remain to be
skipped, call `read` with the remaining amount bounded by the default
output chunk size, stopping early on an empty read (EOF).  `readFn`
models the `read()` method call: given the requested size and the current
state it returns the new state and the number of bytes the read
returned. -/
def seekLoop (outSize : Nat) (readFn : Nat → State → State × Nat) :
    State → Nat → State
  | s, 0 => s
  | s, n + 1 =>
    match readFn (min (n + 1) outSize) s with
    | (s1, 0) => s1
    | (s1, k + 1) => seekLoop outSize readFn s1 (n + 1 - (k + 1))
termination_by _s n => n
decreasing_by omega

/-- Model of `reader_seek` (src/c-ext/decompressionreader.c lines 278-353).
Guards in source order: not entered → `ZstdError`; closed → `ValueError`.
`SEEK_SET` (0): negative target or a target behind the current position →
`ValueError`, else skip forward by the difference.  `SEEK_CUR` (1):
negative offset → `ValueError`, else skip forward by the offset.
`SEEK_END` (2): always `ValueError`.  Any other whence leaves the skip
amount at zero.  The skip itself is `seekLoop`, and the returned value is
the final `bytesDecompressed` counter. -/
def reader_seek (s : State) (pos : Int) (whence : Int) (outSize : Nat)
    (readFn : Nat → State → State × Nat) : Except ZErr (State × Nat) :=
  if !s.entered then
    .error .zstdError
  else if s.closed then
    .error .valueError
  else if whence = 0 then
    if pos < 0 then
      .error .valueError
    else if pos.toNat < s.bytesDecompressed then
      .error .valueError
    else
      let s1 := seekLoop outSize readFn s (pos.toNat - s.bytesDecompressed)
      .ok (s1, s1.bytesDecompressed)
  else if whence = 1 then
    if pos < 0 then
      .error .valueError
    else
      let s1 := seekLoop outSize readFn s pos.toNat
      .ok (s1, s1.bytesDecompressed)
  else if whence = 2 then
    .error .valueError
  else
    .ok (s, s.bytesDecompressed)

end DecompressionReader

namespace CompressionReader

/-- The session state of a `ZstdCompressionReader`
(src/c-ext/python-zstandard.h lines 161-179). -/
structure State where
  entered : Bool
  closed : Bool
  finishedInput : Bool
  finishedOutput : Bool
  bytesCompressed : Nat
  deriving DecidableEq, Repr

/-- Model of `reader_enter` (src/c-ext/compressionreader.c lines 45-64): a second
`__enter__` raises `ValueError` before the native pledged-source-size
call (whose outcome is `pledgeOk`). -/
def reader_enter (pledgeOk : Bool) (s : State) : Except ZErr State :=
  if s.entered then
    .error .valueError
  else if !pledgeOk then
    .error .zstdError
  else
    .ok { s with entered := true }

/-- The guard sequence of `reader_read`
(src/c-ext/compressionreader.c lines 162-183), identical in order to the
decompression reader: entered check, closed check, finished-output check
(returning `b""` before the size argument is parsed), then the size
check. -/
def reader_read_guard (s : State) (size : Int) : ReadStep :=
  if !s.entered then
    .raise .zstdError
  else if s.closed then
    .raise .valueError
  else if s.finishedOutput then
    .emptyBytes
  else if size < 1 then
    .raise .valueError
  else
    .proceed size

/-- Model of `reader_flush` (src/c-ext/compressionreader.c lines 126-128): an
unconditional no-op returning `None`. -/
def reader_flush (_s : State) : Except ZErr Unit :=
  .ok ()

end CompressionReader

namespace CompressionWriter

/-- The session state of a `ZstdCompressionWriter`
(src/c-ext/python-zstandard.h lines 130-138): note there is no `closed`
flag on this type. -/
structure State where
  entered : Bool
  bytesCompressed : Nat
  deriving DecidableEq, Repr

/-- Model of `ZstdCompressionWriter_enter` (src/c-ext/compressionwriter.c lines
24-43): a second `__enter__` raises `ZstdError` before the native
pledged-source-size call (whose outcome is `pledgeOk`). -/
def ZstdCompressionWriter_enter (pledgeOk : Bool) (s : State) :
    Except ZErr State :=
  if s.entered then
    .error .zstdError
  else if !pledgeOk then
    .error .zstdError
  else
    .ok { s with entered := true }

/-- The guard sequence of `ZstdCompressionWriter_write`
(src/c-ext/compressionwriter.c lines 133-142), after argument parsing:
not entered → `ZstdError` ("compress must be called from an active
context manager") before any native call; a non-contiguous or
multi-dimensional data buffer → `ValueError`. -/
def write_guard (s : State) (contiguous : Bool) : Except ZErr Unit :=
  if !s.entered then
    .error .zstdError
  else if !contiguous then
    .error .valueError
  else
    .ok ()

/-- The guard of `ZstdCompressionWriter_flush`
(src/c-ext/compressionwriter.c lines 198-201): not entered → `ZstdError`
before any native call. -/
def flush_guard (s : State) : Except ZErr Unit :=
  if !s.entered then
    .error .zstdError
  else
    .ok ()

end CompressionWriter

/-- C1: the validation loop of `BufferWithSegments_init` computes
`offset + length` in wrapping u64 arithmetic, so a segment whose
mathematical `offset + length` wildly exceeds `dataSize` can wrap to a
small value, pass validation, and become reachable: `item(0)` then
returns a view addressing memory far outside the 6-byte parent buffer.
This theorem evaluates the constructor and `item` at that failing
input. -/
theorem c1_segment_validation_wrap_bug :
    BufferWithSegments_init 6 [⟨U64_MOD - 1, 2⟩] =
      .ok { dataSize := 6, segments := [⟨U64_MOD - 1, 2⟩] } ∧
    U64_MOD - 1 + 2 > 6 ∧
    BufferWithSegments_item { dataSize := 6, segments := [⟨U64_MOD - 1, 2⟩] } 0 =
      .ok { offset := U64_MOD - 1, dataSize := 2 } ∧
    ¬ viewInBounds 6 { offset := U64_MOD - 1, dataSize := 2 } := by
  refine ⟨rfl, by norm_num [U64_MOD], rfl, ?_⟩
  simp only [viewInBounds, U64_MOD]
  norm_num

/-- C9 counterexample: the claim asserts that every `item(i)` of a
successfully constructed collection resolves against offsets and lengths
with `offset + length ≤ dataSize`; the u64 wrap-around in the validation
loop falsifies this: construction from a 6-byte buffer with the single
segment `(2^64 - 1, 2)` succeeds, and `item(0)` resolves against a pair
whose sum exceeds the buffer size. -/
theorem c9_private_copy_counterexample :
    BufferWithSegments_init 6 [⟨U64_MOD - 1, 2⟩] =
      .ok { dataSize := 6, segments := [⟨U64_MOD - 1, 2⟩] } ∧
    BufferWithSegments_item { dataSize := 6, segments := [⟨U64_MOD - 1, 2⟩] } 0 =
      .ok { offset := U64_MOD - 1, dataSize := 2 } ∧
    ¬ (U64_MOD - 1 + 2 ≤ 6) := by
  refine ⟨rfl, rfl, ?_⟩
  norm_num [U64_MOD]

/-- C9 (amended): a successfully constructed collection stores a private
snapshot of the caller's segment table (so later `item(i)` calls resolve
against the construction-time records, independent of any later caller
mutation — `BufferWithSegments_item` reads only the stored `segments`
field), and every such record satisfies the validated wrapped bound
`(offset + length) mod 2^64 ≤ dataSize`. -/
theorem c9_private_copy_validated_bound (dataSize : Nat)
    (segs : List BufferSegment) (bws : ZstdBufferWithSegments)
    (h : BufferWithSegments_init dataSize segs = .ok bws) :
    bws.segments = segs ∧ bws.dataSize = dataSize ∧
    ∀ i : Nat, i < bws.segments.length →
      ∃ v, BufferWithSegments_item bws (i : Int) = .ok v ∧
        (v.offset + v.dataSize) % U64_MOD ≤ dataSize := by
  rw [BufferWithSegments_init] at h
  split at h
  · exact absurd h (by simp)
  · rename_i hany
    rw [Bool.not_eq_true, List.any_eq_false] at hany
    injection h with h
    subst h
    refine ⟨rfl, rfl, ?_⟩
    intro i hi
    have hi2 : i < segs.length := hi
    have h0 : ¬ ((i : Int) < 0) := by omega
    have h1 : ¬ ((i : Int) ≥ (segs.length : Int)) := by
      simp only [ge_iff_le, not_le]
      exact_mod_cast hi2
    rw [BufferWithSegments_item, if_neg h0, if_neg h1]
    have hget : segs.get? (i : Int).toNat = some (segs.get ⟨i, hi2⟩) := by
      rw [Int.toNat_natCast]
      exact List.get?_eq_get hi2
    rw [hget]
    refine ⟨_, rfl, ?_⟩
    have hmem := hany (segs.get ⟨i, hi2⟩) (List.get_mem segs i hi2)
    simp only [segmentRejected, decide_eq_true_eq, not_lt, gt_iff_lt] at hmem
    simpa using hmem

/-- C9 witness: the amended theorem applied to the collection built from
the 6-byte buffer with segments `(0,3)` and `(3,3)`. -/
theorem c9_private_copy_validated_bound_witness :
    ({ dataSize := 6, segments := [⟨0, 3⟩, ⟨3, 3⟩] } :
        ZstdBufferWithSegments).segments = [⟨0, 3⟩, ⟨3, 3⟩] ∧
    ({ dataSize := 6, segments := [⟨0, 3⟩, ⟨3, 3⟩] } :
        ZstdBufferWithSegments).dataSize = 6 ∧
    ∀ i : Nat,
      i < ({ dataSize := 6, segments := [⟨0, 3⟩, ⟨3, 3⟩] } :
        ZstdBufferWithSegments).segments.length →
      ∃ v, BufferWithSegments_item
          { dataSize := 6, segments := [⟨0, 3⟩, ⟨3, 3⟩] } (i : Int) = .ok v ∧
        (v.offset + v.dataSize) % U64_MOD ≤ 6 :=
  c9_private_copy_validated_bound 6 [⟨0, 3⟩, ⟨3, 3⟩] _ rfl

/-- C5: when the frame header carries no content size
(`ZSTD_getDecompressedSize` returns 0) and no `max_output_size` was given
(the argument defaults to 0), one-shot `decompress` fails with
`ZstdError` (the spec's DecompressionError) for every possible behaviour
of the native decompressor — i.e. without attempting decompression. -/
theorem c5_unknown_content_size_requires_max_output
    (native : Nat → Except String (List Nat)) :
    ZstdDecompressor_decompress 0 0 native = .error .zstdError := by
  simp [ZstdDecompressor_decompress]

/-- C10: on an entered, non-closed reader session (decompression or
compression) whose output is finished, `read(size)` returns the empty
byte string for every `size` — the `finishedOutput` test precedes the
size validation — while on a session whose output is not finished a
`size < 1` raises `ValueError`. -/
theorem c10_finished_output_read_short_circuits
    (fiD : Bool) (nD : Nat) (fiC : Bool) (nC : Nat) (size : Int) :
    DecompressionReader.reader_read_guard
      ⟨true, false, fiD, true, nD⟩ size = .emptyBytes ∧
    CompressionReader.reader_read_guard
      ⟨true, false, fiC, true, nC⟩ size = .emptyBytes ∧
    (size < 1 →
      DecompressionReader.reader_read_guard
        ⟨true, false, fiD, false, nD⟩ size = .raise .valueError ∧
      CompressionReader.reader_read_guard
        ⟨true, false, fiC, false, nC⟩ size = .raise .valueError) := by
  refine ⟨rfl, rfl, fun h => ⟨?_, ?_⟩⟩
  · simp [DecompressionReader.reader_read_guard, h]
  · simp [CompressionReader.reader_read_guard, h]

/-- C10 witness: the theorem at `size = 0` on concrete session states,
hitting both the finished-output fast return and the size error. -/
theorem c10_finished_output_read_short_circuits_witness :
    DecompressionReader.reader_read_guard
      ⟨true, false, false, true, 0⟩ 0 = .emptyBytes ∧
    DecompressionReader.reader_read_guard
      ⟨true, false, false, false, 0⟩ 0 = .raise .valueError ∧
    CompressionReader.reader_read_guard
      ⟨true, false, false, false, 0⟩ 0 = .raise .valueError :=
  ⟨(c10_finished_output_read_short_circuits false 0 false 0 0).1,
   ((c10_finished_output_read_short_circuits false 0 false 0 0).2.2
     (by decide)).1,
   ((c10_finished_output_read_short_circuits false 0 false 0 0).2.2
     (by decide)).2⟩

/-- C6: for a frame with a known non-zero declared content size, one-shot
`decompress` returns a result only when the produced byte count equals
the declared size; a native error or a size mismatch yields `ZstdError`
(the spec's DecompressionError) instead of a truncated result. -/
theorem c6_size_mismatch_is_error (declared : Nat) (maxOut : Int)
    (native : Nat → Except String (List Nat)) (hd : 0 < declared) :
    (∀ out, ZstdDecompressor_decompress declared maxOut native = .ok out →
      out.length = declared) ∧
    (∀ out, native declared = .ok out → out.length ≠ declared →
      ZstdDecompressor_decompress declared maxOut native = .error .zstdError) ∧
    (∀ msg, native declared = .error msg →
      ZstdDecompressor_decompress declared maxOut native = .error .zstdError) := by
  have h0 : declared ≠ 0 := by omega
  have key : ZstdDecompressor_decompress declared maxOut native =
      match native declared with
      | .error _ => .error .zstdError
      | .ok produced =>
        if produced.length ≠ declared then .error .zstdError
        else .ok produced := by
    rw [ZstdDecompressor_decompress]
    rw [if_neg (by simp [h0]), if_neg (by simp [h0])]
    simp [h0]
  refine ⟨?_, ?_, ?_⟩
  · intro out hok
    rw [key] at hok
    cases hnat : native declared with
    | error msg => rw [hnat] at hok; exact absurd hok (by simp)
    | ok produced =>
      rw [hnat] at hok
      by_cases hlen : produced.length = declared
      · simp only [hlen, ne_eq, not_true_eq_false, if_false, ite_false] at hok
        have hpo : produced = out := by simpa using hok
        rw [← hpo]
        exact hlen
      · simp [hlen] at hok
  · intro out hnat hlen
    rw [key, hnat]
    simp [hlen]
  · intro msg hnat
    rw [key, hnat]

/-- C6 witness: a frame declaring 1 byte whose native decompression
produces 2 bytes is rejected with `ZstdError`. -/
theorem c6_size_mismatch_is_error_witness :
    ZstdDecompressor_decompress 1 0 (fun _ => .ok [7, 8]) =
      .error .zstdError :=
  (c6_size_mismatch_is_error 1 0 (fun _ => .ok [7, 8]) (by decide)).2.1
    [7, 8] rfl (by decide)

/-- C7 counterexample: the decompression reader's `flush` carries no
state guard at all, so on a session that is closed and not entered it
still succeeds — contradicting the claim that `flush` succeeds only
while `entered ∧ ¬closed`. -/
theorem c7_reader_flush_unchecked_counterexample :
    DecompressionReader.reader_flush ⟨false, true, false, false, 0⟩ = .ok () ∧
    (DecompressionReader.State.entered ⟨false, true, false, false, 0⟩ = false ∧
     DecompressionReader.State.closed ⟨false, true, false, false, 0⟩ = true) :=
  ⟨rfl, rfl, rfl⟩

/-- C7 (amended): a `read` on either reader fails with a state error
(`ZstdError` when not entered, `ValueError` when closed) before any
native call; `write` and `flush` on the compression writer fail with
`ZstdError` when not entered (the writer has no closed flag); and a
second `__enter__` on an already-entered session fails with a state
error (`ValueError` on the readers, `ZstdError` on the writer)
regardless of the native preparation call's outcome.  The readers' own
`flush` is an unchecked no-op and is exempt. -/
theorem c7_session_state_guards :
    (∀ (c fi fo : Bool) (n : Nat) (size : Int),
      DecompressionReader.reader_read_guard ⟨false, c, fi, fo, n⟩ size =
        .raise .zstdError) ∧
    (∀ (fi fo : Bool) (n : Nat) (size : Int),
      DecompressionReader.reader_read_guard ⟨true, true, fi, fo, n⟩ size =
        .raise .valueError) ∧
    (∀ (c fi fo : Bool) (n : Nat) (size : Int),
      CompressionReader.reader_read_guard ⟨false, c, fi, fo, n⟩ size =
        .raise .zstdError) ∧
    (∀ (fi fo : Bool) (n : Nat) (size : Int),
      CompressionReader.reader_read_guard ⟨true, true, fi, fo, n⟩ size =
        .raise .valueError) ∧
    (∀ (n : Nat) (contiguous : Bool),
      CompressionWriter.write_guard ⟨false, n⟩ contiguous =
        .error .zstdError) ∧
    (∀ n : Nat,
      CompressionWriter.flush_guard ⟨false, n⟩ = .error .zstdError) ∧
    (∀ (dctxOk c fi fo : Bool) (n : Nat),
      DecompressionReader.reader_enter dctxOk ⟨true, c, fi, fo, n⟩ =
        .error .valueError) ∧
    (∀ (pledgeOk c fi fo : Bool) (n : Nat),
      CompressionReader.reader_enter pledgeOk ⟨true, c, fi, fo, n⟩ =
        .error .valueError) ∧
    (∀ (pledgeOk : Bool) (n : Nat),
      CompressionWriter.ZstdCompressionWriter_enter pledgeOk ⟨true, n⟩ =
        .error .zstdError) ∧
    (∀ (e c fi fo : Bool) (n : Nat),
      DecompressionReader.reader_flush ⟨e, c, fi, fo, n⟩ = .ok () ∧
      CompressionReader.reader_flush ⟨e, c, fi, fo, n⟩ = .ok ()) :=
  ⟨fun _ _ _ _ _ => rfl, fun _ _ _ _ => rfl, fun _ _ _ _ _ => rfl,
   fun _ _ _ _ => rfl, fun _ _ => rfl, fun _ => rfl,
   fun _ _ _ _ _ => rfl, fun _ _ _ _ _ => rfl, fun _ _ => rfl,
   fun _ _ _ _ _ => ⟨rfl, rfl⟩⟩

/-- C8 counterexample: a backward seek (`SEEK_SET` behind the current
position) and a `SEEK_END` seek fail with `ValueError`, not with
`io.UnsupportedOperation` as the claim states. -/
theorem c8_backward_seek_error_type_counterexample :
    DecompressionReader.reader_seek ⟨true, false, false, false, 5⟩ 3 0 131075
      (fun _ st => (st, 0)) = .error .valueError ∧
    DecompressionReader.reader_seek ⟨true, false, false, false, 5⟩ 0 2 131075
      (fun _ st => (st, 0)) = .error .valueError ∧
    ZErr.valueError ≠ ZErr.unsupportedOperation := by
  exact ⟨rfl, rfl, by decide⟩

/-- C8 (amended): on an entered, non-closed decompression reader
session,
`seek` fails with `ValueError` — performing no read, whatever the read
oracle would do — for a backward `SEEK_SET` target, a negative
`SEEK_CUR` offset, or `SEEK_END`; a forward `SEEK_SET` or non-negative
`SEEK_CUR` runs only the bounded read-and-discard loop `seekLoop` and
returns the resulting decompressed position. -/
theorem c8_seek_forward_only (fi fo : Bool) (n : Nat) (pos : Int)
    (outSize : Nat)
    (readFn : Nat → DecompressionReader.State →
      DecompressionReader.State × Nat) :
    (pos < 0 ∨ (0 ≤ pos ∧ pos.toNat < n) →
      DecompressionReader.reader_seek ⟨true, false, fi, fo, n⟩ pos 0 outSize
        readFn = .error .valueError) ∧
    (pos < 0 →
      DecompressionReader.reader_seek ⟨true, false, fi, fo, n⟩ pos 1 outSize
        readFn = .error .valueError) ∧
    (DecompressionReader.reader_seek ⟨true, false, fi, fo, n⟩ pos 2 outSize
        readFn = .error .valueError) ∧
    (0 ≤ pos → n ≤ pos.toNat →
      DecompressionReader.reader_seek ⟨true, false, fi, fo, n⟩ pos 0 outSize
        readFn =
        .ok (DecompressionReader.seekLoop outSize readFn
               ⟨true, false, fi, fo, n⟩ (pos.toNat - n),
             (DecompressionReader.seekLoop outSize readFn
               ⟨true, false, fi, fo, n⟩ (pos.toNat - n)).bytesDecompressed)) ∧
    (0 ≤ pos →
      DecompressionReader.reader_seek ⟨true, false, fi, fo, n⟩ pos 1 outSize
        readFn =
        .ok (DecompressionReader.seekLoop outSize readFn
               ⟨true, false, fi, fo, n⟩ pos.toNat,
             (DecompressionReader.seekLoop outSize readFn
               ⟨true, false, fi, fo, n⟩ pos.toNat).bytesDecompressed)) := by
  refine ⟨?_, ?_, ?_, ?_, ?_⟩
  · rintro (hneg | ⟨hpos, hlt⟩)
    · simp [DecompressionReader.reader_seek, hneg]
    · simp [DecompressionReader.reader_seek, not_lt.mpr hpos, hlt]
  · intro hneg
    simp [DecompressionReader.reader_seek, hneg]
  · simp [DecompressionReader.reader_seek]
  · intro hpos hge
    simp [DecompressionReader.reader_seek, not_lt.mpr hpos, not_lt.mpr hge]
  · intro hpos
    simp [DecompressionReader.reader_seek, not_lt.mpr hpos]

/-- C8 witness: the amended theorem at a backward target (position 3,
current position 5 — `ValueError`) and at a forward `SEEK_SET` from
position 0 with a read oracle that always delivers what was asked. -/
theorem c8_seek_forward_only_witness :
    DecompressionReader.reader_seek ⟨true, false, false, false, 5⟩ 3 0 4
      (fun _ st => (st, 0)) = .error .valueError ∧
    DecompressionReader.reader_seek ⟨true, false, false, false, 0⟩ 4 0 4
      (fun q st =>
        ({ st with bytesDecompressed := st.bytesDecompressed + q }, q)) =
      .ok (DecompressionReader.seekLoop 4
             (fun q st =>
               ({ st with bytesDecompressed := st.bytesDecompressed + q },
                q))
             ⟨true, false, false, false, 0⟩ ((4 : Int).toNat - 0),
           (DecompressionReader.seekLoop 4
             (fun q st =>
               ({ st with bytesDecompressed := st.bytesDecompressed + q },
                q))
             ⟨true, false, false, false, 0⟩
             ((4 : Int).toNat - 0)).bytesDecompressed) :=
  ⟨(c8_seek_forward_only false false 5 3 4 (fun _ st => (st, 0))).1
     (Or.inr ⟨by decide, by decide⟩),
   (c8_seek_forward_only false false 0 4 4
     (fun q st =>
       ({ st with bytesDecompressed := st.bytesDecompressed + q }, q))).2.2.2.1
     (by decide) (by decide)⟩

/-- Every entry of the block-size schedule is positive. -/
lemma scheduleSize_pos (n : Nat) : 0 < scheduleSize n := by
  rw [scheduleSize]
  split
  · rename_i h
    simp only [BUFFER_BLOCK_SIZE, List.length] at h
    interval_cases n <;> decide
  · decide

/-- The budget invariant of the blocks output buffer: the recorded
maximum is `M`, the cumulative allocation is within budget, and the
`allocated` counter agrees with the sum of the block sizes. -/
def budgetInv (M : Int) (b : BlocksOutputBuffer) : Prop :=
  b.max_length = M ∧ b.allocated ≤ M ∧ b.allocated = b.blocks.sum

/-- The function `OutputBuffer_Grow` preserves the budget invariant. -/
lemma grow_preserves_budgetInv (M : Int) (hM : 0 ≤ M)
    (b b2 : BlocksOutputBuffer) (hInv : budgetInv M b)
    (h : OutputBuffer_Grow b = .ok b2) : budgetInv M b2 := by
  obtain ⟨hmax, hle, hsum⟩ := hInv
  simp only [OutputBuffer_Grow] at h
  split at h
  · injection h with h
    rw [← h]
    exact ⟨hmax, hle, hsum⟩
  · split at h
    · exact absurd h (by simp)
    · injection h with h
      have hclip : b.allocated + growBlockSize b ≤ M := by
        simp only [growBlockSize, hmax]
        split_ifs <;> omega
      rw [← h]
      refine ⟨hmax, hclip, ?_⟩
      simp [List.sum_append, hsum]

/-- Iterated growth preserves the budget invariant. -/
lemma growN_preserves_budgetInv (M : Int) (hM : 0 ≤ M)
    (b0 : BlocksOutputBuffer) (hInv : budgetInv M b0) :
    ∀ n b1, growN b0 n = .ok b1 → budgetInv M b1 := by
  intro n
  induction n with
  | zero =>
    intro b1 h
    injection h with h
    rw [← h]
    exact hInv
  | succ k ih =>
    intro b1 h
    rw [growN] at h
    split at h
    · exact absurd h (by simp)
    · rename_i b' hb'
      exact grow_preserves_budgetInv M hM b' b1 (ih b' hb') h

/-- The freshly initialized buffer satisfies the budget invariant. -/
lemma init_budgetInv (M : Int) (hM : 0 ≤ M) :
    budgetInv M (OutputBuffer_InitAndGrow M) := by
  have hB : BUFFER_BLOCK_SIZE.getD 0 0 = 32768 := by decide
  simp only [OutputBuffer_InitAndGrow, budgetInv, hB, List.sum_cons,
    List.sum_nil]
  refine ⟨by trivial, ?_, ?_⟩
  · split_ifs <;> omega
  · split_ifs <;> omega

/-- C2: with a non-negative ceiling `M`, the first block is sized
`min(M, BUFFER_BLOCK_SIZE[0])`; after any number of `grow()` calls the
cumulative allocation (which equals the sum of the block sizes) never
exceeds `M`; and every block a further `grow()` appends is clipped to
`min(schedule size, M - allocated)` (no block at all is appended when
`M = 0`). -/
theorem c2_growable_buffer_budget_invariant (M : Int) (hM : 0 ≤ M) :
    (OutputBuffer_InitAndGrow M).blocks =
      [min M (BUFFER_BLOCK_SIZE.getD 0 0)] ∧
    ∀ n b1, growN (OutputBuffer_InitAndGrow M) n = .ok b1 →
      b1.allocated ≤ M ∧ b1.allocated = b1.blocks.sum ∧
      ∀ b2, OutputBuffer_Grow b1 = .ok b2 →
        b2.blocks = b1.blocks ∨
        b2.blocks = b1.blocks ++
          [min (scheduleSize b1.blocks.length) (M - b1.allocated)] := by
  constructor
  · have hB : BUFFER_BLOCK_SIZE.getD 0 0 = 32768 := by decide
    simp only [OutputBuffer_InitAndGrow, hB]
    congr 1
    rw [min_def]
    split_ifs <;> omega
  · intro n b1 h1
    have hInv := growN_preserves_budgetInv M hM _ (init_budgetInv M hM) n b1 h1
    obtain ⟨hmax, hle, hsum⟩ := hInv
    refine ⟨hle, hsum, ?_⟩
    intro b2 h2
    simp only [OutputBuffer_Grow] at h2
    split at h2
    · left
      injection h2 with h2
      rw [← h2]
    · split at h2
      · exact absurd h2 (by simp)
      · right
        injection h2 with h2
        have hg : growBlockSize b1 =
            min (scheduleSize b1.blocks.length) (M - b1.allocated) := by
          simp only [growBlockSize, hmax, min_def]
          split_ifs <;> omega
        rw [← h2, hg]

/-- C2 witness: the invariant for ceiling 5 — first block of size
`min(5, 32768)`, and the allocation never exceeds 5 (here after zero
grow calls). -/
theorem c2_growable_buffer_budget_invariant_witness :
    (OutputBuffer_InitAndGrow 5).blocks =
      [min (5 : Int) (BUFFER_BLOCK_SIZE.getD 0 0)] ∧
    (OutputBuffer_InitAndGrow 5).allocated ≤ 5 :=
  ⟨(c2_growable_buffer_budget_invariant 5 (by decide)).1,
   ((c2_growable_buffer_budget_invariant 5 (by decide)).2 0 _ rfl).1⟩

/-- The fast path of `OutputBuffer_Finish` returns exactly what the
general copying path would produce: in every state, `finish()` equals
the concatenation of every block but the last with the used prefix of
the last block. -/
lemma finish_eq_general (b : BlocksOutputData) :
    OutputBuffer_Finish b =
      b.blocks.dropLast.flatten ++ (b.blocks.getLastD []).take b.obPos := by
  rw [OutputBuffer_Finish]
  split
  · rename_i hfast
    rcases hfast with ⟨hlen, hpos⟩ | ⟨hlen, hpos⟩
    · obtain ⟨x, hx⟩ := List.length_eq_one.mp hlen
      rw [BlocksOutputData.obSize, hx] at hpos
      simp [hx, hpos]
    · obtain ⟨x, y, hx⟩ := List.length_eq_two.mp hlen
      simp [hx, hpos]
  · rfl

/-- C3: for a buffer whose last block holds `obPos ≤ obSize` used bytes,
`finish()` returns the concatenation of every block except the last
followed by the used prefix of the last block (the fast single-block
path included), and the result length is both
`allocated - (obSize - obPos)` and the number `N` of bytes the buffer
received (all full blocks plus the used part of the last). -/
theorem c3_finish_returns_exactly_received_bytes (b : BlocksOutputData)
    (h1 : b.blocks ≠ []) (h2 : b.obPos ≤ b.obSize) :
    OutputBuffer_Finish b =
      b.blocks.dropLast.flatten ++ (b.blocks.getLastD []).take b.obPos ∧
    (OutputBuffer_Finish b).length =
      b.allocated - (b.obSize - b.obPos) ∧
    (OutputBuffer_Finish b).length =
      (b.blocks.dropLast.map List.length).sum + b.obPos := by
  have hg := finish_eq_general b
  rcases List.eq_nil_or_concat b.blocks with hnil | ⟨ys, x, hx⟩
  · exact absurd hnil h1
  · rw [List.concat_eq_append] at hx
    have hlast : b.blocks.getLastD [] = x := by
      rw [hx, List.getLastD_concat]
    have hdrop : b.blocks.dropLast = ys := by
      rw [hx, List.dropLast_concat]
    have hsize : b.obSize = x.length := by
      rw [BlocksOutputData.obSize, hlast]
    have halloc : b.allocated = (ys.map List.length).sum + x.length := by
      rw [BlocksOutputData.allocated, hx]
      simp
    have h2x : b.obPos ≤ x.length := hsize ▸ h2
    refine ⟨hg, ?_, ?_⟩
    · rw [hg, hdrop, hlast, List.length_append, List.length_flatten,
        List.length_take, halloc, hsize]
      omega
    · rw [hg, hdrop, hlast, List.length_append, List.length_flatten,
        List.length_take]
      omega

/-- C3 witness: the theorem on a buffer holding the full block `[1, 2]`
and one used byte of the block `[3, 4]`. -/
theorem c3_finish_returns_exactly_received_bytes_witness :
    OutputBuffer_Finish ⟨[[1, 2], [3, 4]], 1⟩ =
      ([[1, 2], [3, 4]] : List (List Nat)).dropLast.flatten ++
        (([[1, 2], [3, 4]] : List (List Nat)).getLastD []).take 1 ∧
    (OutputBuffer_Finish ⟨[[1, 2], [3, 4]], 1⟩).length =
      BlocksOutputData.allocated ⟨[[1, 2], [3, 4]], 1⟩ -
        (BlocksOutputData.obSize ⟨[[1, 2], [3, 4]], 1⟩ - 1) ∧
    (OutputBuffer_Finish ⟨[[1, 2], [3, 4]], 1⟩).length =
      (([[1, 2], [3, 4]] : List (List Nat)).dropLast.map List.length).sum
        + 1 :=
  c3_finish_returns_exactly_received_bytes ⟨[[1, 2], [3, 4]], 1⟩
    (by decide) (by decide)

/-- C4 counterexample: a buffer with `max_length = allocated = 100` and
a completely full current block (`obPos = obSize`) has zero remaining
budget, yet `grow()` succeeds — appending a zero-size block — instead of
failing with an allocation error as the claim states. -/
theorem c4_zero_budget_grow_succeeds_counterexample :
    OutputBuffer_Grow ⟨[100], 100, 100, 100, 100⟩ =
      .ok ⟨[100, 0], 100, 100, 0, 0⟩ ∧
    OutputBuffer_Grow ⟨[100], 100, 100, 100, 100⟩ ≠
      .error .memoryError := by
  refine ⟨rfl, ?_⟩
  intro h
  rw [show OutputBuffer_Grow ⟨[100], 100, 100, 100, 100⟩ =
      .ok ⟨[100, 0], 100, 100, 0, 0⟩ from rfl] at h
  exact absurd h (by simp)

/-- C4 (amended): `grow()` with zero remaining budget succeeds rather
than failing: with `max_length = 0` it returns the buffer unchanged, and
with `0 < max_length = allocated` it appends a zero-size block; the only
failure of `grow()` is the `MemoryError` (the spec's AllocationError)
raised exactly when the budget-clipped block size would overflow
`PY_SSIZE_T_MAX - allocated`. -/
theorem c4_grow_error_only_on_overflow (b : BlocksOutputBuffer) :
    (OutputBuffer_Grow b = .error .memoryError ↔
      b.max_length ≠ 0 ∧ growBlockSize b > PY_SSIZE_T_MAX - b.allocated) ∧
    (b.max_length = 0 → OutputBuffer_Grow b = .ok b) ∧
    (0 < b.max_length → b.allocated = b.max_length →
      b.allocated ≤ PY_SSIZE_T_MAX →
      OutputBuffer_Grow b =
        .ok { blocks := b.blocks ++ [0], allocated := b.allocated,
              max_length := b.max_length, obSize := 0, obPos := 0 }) := by
  refine ⟨?_, ?_, ?_⟩
  · simp only [OutputBuffer_Grow]
    split
    · rename_i h0
      simp [h0]
    · rename_i h0
      split
      · rename_i hovf
        simp [h0, hovf]
      · rename_i hovf
        simp [h0, hovf]
  · intro h0
    simp only [OutputBuffer_Grow]
    rw [if_pos h0]
  · intro h1 h2 h3
    have hzero : growBlockSize b = 0 := by
      have hs := scheduleSize_pos b.blocks.length
      simp only [growBlockSize]
      split_ifs <;> omega
    simp only [OutputBuffer_Grow]
    rw [if_neg (by omega), hzero, if_neg (by omega)]
    have : b.allocated + 0 = b.allocated := by omega
    rw [this]

/-- C4 witness: a buffer with ceiling 50 fully allocated (50 of 50) —
`grow()` succeeds and appends a zero-size block. -/
theorem c4_grow_error_only_on_overflow_witness :
    OutputBuffer_Grow ⟨[64], 50, 50, 64, 64⟩ =
      .ok { blocks := [64] ++ [0], allocated := 50, max_length := 50,
            obSize := 0, obPos := 0 } :=
  (c4_grow_error_only_on_overflow ⟨[64], 50, 50, 64, 64⟩).2.2
    (by decide) (by decide) (by decide)
